import Mathlib

/-!
# Verification of the sanipasse Digital Green Certificate pipeline

A shallow embedding of `src/lib/digital_green_certificate.ts` (the DGC
verification pipeline of the sanipasse repository) together with theorems
checking the repository's specification against it.

Modelling conventions:
* JavaScript strings are `String` (or `List Char` for the scanned document,
  which is only ever traversed character by character).
* Byte sequences (`Uint8Array`, `Buffer`) are `List Nat`, each element < 256.
* `Date` values and Unix timestamps are `Int` (comparing two `Date`s in JS
  compares their underlying integer timestamps).
* Third-party collaborators (`cbor-web`'s `decodeFirst`, `ajv` validation,
  `cosette`'s signature check, `pako`'s `inflate`, the bundled `DCCCerts`
  trust-store data) are parameters of the pipeline, gathered in `Env`;
  fallible ones return `Option`/`Bool`.  `base45-ts` and the base64 rendering
  of the key identifier are implemented concretely, since claims quantify
  over their actual input/output relation.
* A thrown JS exception is an `Except.error` carrying the kind of error
  (the TS error classes additionally carry the offending record and a French
  message; the claims are only about which error is surfaced, plus the
  schema diagnostic text, which the model does keep).
-/

deriving instance DecidableEq for Except

namespace Sanipasse

/-! ## Decoded CBOR values

`cbor-web` decodes CBOR items into JS values: numbers, byte strings,
text strings, booleans, arrays, `Map`s (numeric-keyed here) and `Tagged`
objects (a COSE_Sign1 message decodes to a `Tagged` with tag 18 whose
`.value` is the 4-element signing array). -/

inductive CborValue where
  | int (n : Int)
  | bytes (b : List Nat)
  | text (s : String)
  | bool (b : Bool)
  | arr (xs : List CborValue)
  | map (entries : List (Int × CborValue))
  | tagged (tag : Nat) (v : CborValue)
  | null

/-- JS property access `coseData?.value`: a `Tagged` object decoded by
cbor-web has a `.value` property; any other decoded value does not, so the
access yields `undefined` (modelled as `none`). -/
def jsValue : CborValue → Option CborValue
  | CborValue.tagged _ v => some v
  | _ => none

/-- JS truthiness of a decoded CBOR value: the number `0`, the empty string,
`false` and `null` are falsy; objects (arrays, maps, byte strings — even
empty ones — and tagged values) are always truthy. -/
def jsFalsy : CborValue → Bool
  | CborValue.int n => n == 0
  | CborValue.text s => s == ""
  | CborValue.bool b => !b
  | CborValue.null => true
  | _ => false

/-- `Map.get` on a numeric-keyed decoded CBOR map (`undefined` ↦ `none`). -/
def mapGet (entries : List (Int × CborValue)) (k : Int) : Option CborValue :=
  List.lookup k entries

/-! ## Base64 (`Buffer.from(rawKid).toString('base64')`) -/

def B64_ALPHABET : List Char :=
  "ABCDEFGHIJKLMNOPQRSTUVWXYZabcdefghijklmnopqrstuvwxyz0123456789+/".toList

def b64char (n : Nat) : Char := B64_ALPHABET.getD n '?'

/-- Standard base64 of a byte sequence, with `=` padding, as produced by
Node's `Buffer.prototype.toString('base64')`. -/
def base64encode : List Nat → List Char
  | [] => []
  | [a] => [b64char (a / 4), b64char (a % 4 * 16), '=', '=']
  | [a, b] => [b64char (a / 4), b64char (a % 4 * 16 + b / 16), b64char (b % 16 * 4), '=']
  | a :: b :: c :: rest =>
    b64char (a / 4) :: b64char (a % 4 * 16 + b / 16) ::
    b64char (b % 16 * 4 + c / 64) :: b64char (c % 64) :: base64encode rest

def base64String (bs : List Nat) : String := String.mk (base64encode bs)

/-! ## Base45 (`base45-ts`)

The radix-45 text encoding of the HCERT transport layer (RFC 9285, as
implemented by the `base45-ts` dependency): two bytes `a, b` form the value
`n = a*256 + b`, written as three base-45 digits, least significant first;
a final lone byte is written as two digits.  The decoder rejects a string
whose length is `1 mod 3`, any character outside the alphabet, and any
digit group whose value exceeds the two-byte (resp. one-byte) range. -/

def B45_ALPHABET : List Char :=
  "0123456789ABCDEFGHIJKLMNOPQRSTUVWXYZ $%*+-./:".toList

def b45char (d : Nat) : Char := B45_ALPHABET.getD d '?'

def b45CharVal (c : Char) : Option Nat := B45_ALPHABET.indexOf? c

def b45encode : List Nat → List Char
  | [] => []
  | [a] => [b45char (a % 45), b45char (a / 45)]
  | a :: b :: rest =>
    b45char ((a * 256 + b) % 45) :: b45char ((a * 256 + b) / 45 % 45) ::
    b45char ((a * 256 + b) / 45 / 45) :: b45encode rest

def b45decode : List Char → Option (List Nat)
  | [] => some []
  | [c, d] =>
    match b45CharVal c, b45CharVal d with
    | some x, some y =>
      if x + 45 * y ≤ 255 then some [x + 45 * y] else none
    | _, _ => none
  | c :: d :: e :: rest =>
    match b45CharVal c, b45CharVal d, b45CharVal e with
    | some x, some y, some z =>
      if x + 45 * y + 2025 * z ≤ 65535 then
        match b45decode rest with
        | some tail => some ((x + 45 * y + 2025 * z) / 256 :: (x + 45 * y + 2025 * z) % 256 :: tail)
        | none => none
      else none
    | _, _, _ => none
  | [_] => none

/-! ## The health-certificate body (HCert)

Typed view of the decoded `-260/1` payload body, following the accesses the
pipeline performs (`nam.gn/gnt/fn/fnt`, `dob`, `v`, `t`, `r`) and the
optionality of the TS `HCert` interface: `fnt` and `dob` are required by the
DCC schema, the other name parts and the three entry lists are optional. -/

structure PersonName where
  fn : Option String
  fnt : String
  gn : Option String
  gnt : Option String
  deriving DecidableEq, Repr

structure VaccinationEntry where
  dt : String
  vp : String
  dn : Int
  sd : Int
  deriving DecidableEq, Repr

structure TestEntry where
  sc : String
  tr : String
  deriving DecidableEq, Repr

structure RecoveryEntry where
  fr : String
  deriving DecidableEq, Repr

structure HCert where
  nam : PersonName
  dob : String
  v : Option (List VaccinationEntry)
  t : Option (List TestEntry)
  r : Option (List RecoveryEntry)
  deriving DecidableEq, Repr

/-- The `UnsafeDGC` record built by `unsafeDGCFromCoseData`.  `hcert = none`
models the `{}` fallback of `cborData.get(-260)?.get(1) || {}` (a body with
none of the accessed properties — it can never pass schema validation, and
reading `.nam` from it throws). -/
structure UnsafeDGC where
  hcert : Option HCert
  kid : String
  issuer : Option String
  issuedAt : Option Int
  expiresAt : Option Int
  deriving DecidableEq, Repr

/-- A DSC (document signer certificate) entry of the bundled trust store,
as exported by `findDGCPublicKey` from the parsed X509 certificate.  The
model keeps the identification fields and the validity window the pipeline
reads (`notBefore`/`notAfter` as integer timestamps — JS `Date` comparison
is comparison of the underlying timestamps); the cryptographic material
(fingerprints, PEM, public key) lives in the abstract signature checker of
`Env`. -/
structure DSC where
  serialNumber : String
  subject : String
  issuer : String
  notBefore : Int
  notAfter : Int
  deriving DecidableEq, Repr

/-- The verified record: `interface DGC extends UnsafeDGC { certificate; code }`. -/
structure DGC extends UnsafeDGC where
  certificate : DSC
  code : List Char
  deriving DecidableEq, Repr

/-- Modelled from the spec: the certificate type of the normalized record
(`common_certificate_info.ts` is not under `src/`); the spec's data model
lists `type: one of {vaccination, test, recovery}`. -/
inductive CertKind where
  | vaccination
  | test
  | recovery
  deriving DecidableEq, Repr

/-- Modelled from the spec: the fields of `CommonCertificateInfo` shared by
every certificate type (first/last name, date of birth, original code);
`common_certificate_info.ts` is not under `src/`.  Dates are kept as their
source strings (`new Date(s)` is injective on the schema's date strings up
to parsing, which no claim depends on). -/
structure CommonFields where
  first_name : String
  last_name : String
  date_of_birth : String
  code : List Char
  deriving DecidableEq, Repr

/-- Modelled from the spec: the normalized, UI-facing record
(`common_certificate_info.ts` is not under `src/`), flattened — the
format-specific fields of the spec's tagged union are `Option`s populated
according to `kind`. -/
structure CommonCertificateInfo where
  kind : CertKind
  common : CommonFields
  vaccination_date : Option String
  prophylactic_agent : Option String
  doses_received : Option Int
  doses_expected : Option Int
  test_date : Option String
  is_negative : Option Bool
  deriving DecidableEq, Repr

/-- The kinds of exception the pipeline can throw, in source order of their
`throw` sites.  `schemaInvalid` carries the diagnostic message built from
the validator's accumulated errors; the TS `DgcError` subclasses also carry
the offending record, which no claim inspects. -/
inductive DgcFailure where
  /-- `Error('HCERT must start with HC1:')` -/
  | missingHC1Header
  /-- `base45-ts` throws on an undecodable string -/
  | base45Error
  /-- `cbor.decodeFirst` throws on undecodable input -/
  | cborDecodeError
  /-- a JS `TypeError` from reading a property/method off a value of the
  wrong shape (e.g. `.get` on a non-`Map`, `Buffer.from` on a number) -/
  | jsTypeError
  /-- `Error('Unexpected COSE data. DGC is probably invalid.')` -/
  | malformedCose
  /-- `Error('Cannot find a KID in COSE Data. DGC is probably invalid.')` -/
  | missingKid
  /-- ``Error(`DGC validation failed:\n...`)`` -/
  | schemaInvalid (msg : String)
  /-- `DgcIssuedInFutureError` -/
  | issuedInFuture
  /-- `ExpiredDgcError` -/
  | expired
  /-- `UnknownKidError` -/
  | unknownKid
  /-- `InvalidCertificateError` -/
  | invalidCertificate
  /-- `cosette`'s `verify` throws on a bad signature -/
  | invalidSignature
  /-- `Error('Unsupported or empty certificate: ...')` -/
  | unsupportedCertificate
  deriving DecidableEq, Repr

/-! ## The decoded CWT payload and `x || null` -/

/-- Typed view of the CWT claims map read off `cbor.decodeFirst(cosePayload)`
at the numeric keys of `CWT_CLAIMS`: `1 = issuer`, `4 = expiration`,
`6 = issued-at` (epoch-second numbers per the CWT registry) and
`-260 → inner key 1 = the health-certificate body` (`none` when the chain
`get(-260)?.get(1)` yields `undefined`, in which case the code substitutes
`{}`). -/
structure CwtPayload where
  issuer : Option String
  expiration : Option Int
  issuedAt : Option Int
  hcert : Option HCert

/-- `cborData.get(k) || null` on a numeric claim: an absent claim stays
null, and the number `0` is falsy in JS, so a present `0` also becomes
null. -/
def jsOrNullInt : Option Int → Option Int
  | some n => if n == 0 then none else some n
  | none => none

/-- `cborData.get(1) || null` on the (string) issuer claim: absent stays
null, and the empty string is falsy. -/
def jsOrNullStr : Option String → Option String
  | some s => if s == "" then none else some s
  | none => none

/-- `ajv`'s error accumulation (third-party `ajv`, not part of this
repository): `violations` stands for the document's full list of schema
violation messages in evaluation order; with `allErrors: true` ajv reports
them all, but with the default options — and `unsafeDGCFromCoseData`
constructs the validator as plain `new Ajv()` — validation stops at the
first violation, so `ajv.errors` holds at most one message. -/
def ajvErrors (allErrors : Bool) (violations : List String) : List String :=
  if allErrors then violations else violations.take 1

/-- The third-party collaborators and bundled data the pipeline runs
against. -/
structure Env where
  /-- `cbor.decodeFirst` on a byte sequence (the COSE envelope and the
  protected-headers byte string are read as generic CBOR values). -/
  decodeFirst : List Nat → Option CborValue
  /-- `cbor.decodeFirst` on the payload byte string, at the typed slice the
  code reads from the resulting `Map` (see `CwtPayload`). -/
  decodePayload : List Nat → Option CwtPayload
  /-- the document's schema-violation messages against the bundled
  `DCC.combined-schema.1.3.0.json`, in ajv evaluation order (`[]` means the
  document is valid; `none` is the `{}` fallback body). -/
  violations : Option HCert → List String
  /-- the bundled `dccCerts.json` trust store, keyed by base64 KID, with
  each PEM already parsed into its `DSC` data (`new X509Certificate(pem)`). -/
  certs : List (String × DSC)
  /-- `cosette`'s `verify(rawCoseData, { key })`: `true` iff the COSE
  signature over the raw data checks out against the public key the trust
  store holds for the given KID. -/
  sigOk : List Nat → String → Bool
  /-- `pako`'s `inflate`: `some` iff the input is a decodable zlib stream. -/
  inflate : List Nat → Option (List Nat)

/-! ## The pipeline (`digital_green_certificate.ts`) -/

/-- `DGC_PREFIX = 'HC1:'` -/
def HC1_HEADER : List Char := ['H', 'C', '1', ':']

/-- `extractCoseFromQRCode` (lines 94–112): strip the `HC1:` prefix (the
`replace` call removes the first occurrence, which the `startsWith` guard
pins at position 0), base45-decode, then attempt zlib inflation, keeping
the bytes as-is when inflation fails (`catch`: "Probably not ZLIBed, that's
OK"). -/
def extractCoseFromQRCode (env : Env) (qrCode : List Char) : Except DgcFailure (List Nat) :=
  if HC1_HEADER.isPrefixOf qrCode then
    match b45decode (qrCode.drop 4) with
    | none => Except.error DgcFailure.base45Error
    | some coseData =>
      match env.inflate coseData with
      | some inflated => Except.ok inflated
      | none => Except.ok coseData
  else Except.error DgcFailure.missingHC1Header

/-- `COSE_HEADERS.KID = 4` -/
def COSE_KID : Int := 4

/-- `unsafeDGCFromCoseData` (lines 117–158): decode the COSE envelope,
require `coseData?.value` to be a 4-element array (arrays are truthy, so
`!coseValue || !Array.isArray(coseValue) || coseValue.length !== 4` is
exactly the failure of that pattern), decode the protected headers, extract
the KID (byte strings are truthy even when empty, so `!rawKid` fires
exactly on an absent — or non-byte-string falsy — header 4), render it in
base64, decode the payload, validate the body against the schema and build
the `UnsafeDGC`. -/
def unsafeDGCFromCoseData (env : Env) (rawCoseData : List Nat) : Except DgcFailure UnsafeDGC :=
  match env.decodeFirst rawCoseData with
  | none => Except.error DgcFailure.cborDecodeError
  | some coseData =>
    match jsValue coseData with
    | some (CborValue.arr [phdrsData, _uhdrs, cosePayload, _signers]) =>
      match phdrsData with
      | CborValue.bytes pb =>
        match env.decodeFirst pb with
        | none => Except.error DgcFailure.cborDecodeError
        | some phdrsVal =>
          match phdrsVal with
          | CborValue.map phdrs =>
            match mapGet phdrs COSE_KID with
            | none => Except.error DgcFailure.missingKid
            | some rawKid =>
              if jsFalsy rawKid then Except.error DgcFailure.missingKid
              else
                match rawKid with
                | CborValue.bytes kidBytes =>
                  match cosePayload with
                  | CborValue.bytes payloadBytes =>
                    match env.decodePayload payloadBytes with
                    | none => Except.error DgcFailure.cborDecodeError
                    | some pay =>
                      match ajvErrors false (env.violations pay.hcert) with
                      | [] =>
                        Except.ok
                          { hcert := pay.hcert
                            kid := base64String kidBytes
                            issuer := jsOrNullStr pay.issuer
                            issuedAt := jsOrNullInt pay.issuedAt
                            expiresAt := jsOrNullInt pay.expiration }
                      | errs =>
                        Except.error (DgcFailure.schemaInvalid
                          ("DGC validation failed:\n" ++ String.intercalate "\n" errs ++ "."))
                  | _ => Except.error DgcFailure.cborDecodeError
                | _ => Except.error DgcFailure.jsTypeError
          | _ => Except.error DgcFailure.jsTypeError
      | _ => Except.error DgcFailure.cborDecodeError
    | _ => Except.error DgcFailure.malformedCose

/-- `dgc.issuedAt !== null && now < dgc.issuedAt` -/
def isIssuedInFuture (dgc : UnsafeDGC) (now : Int) : Bool :=
  match dgc.issuedAt with
  | some issuedAt => decide (now < issuedAt)
  | none => false

/-- `dgc.expiresAt !== null && dgc.expiresAt < now` -/
def isExpiredNow (dgc : UnsafeDGC) (now : Int) : Bool :=
  match dgc.expiresAt with
  | some expiresAt => decide (expiresAt < now)
  | none => false

/-- `verifyDGCClaims` (lines 175–181); `now` is
`Math.floor(Date.now() / 1000)`, in epoch seconds. -/
def verifyDGCClaims (dgc : UnsafeDGC) (now : Int) : Except DgcFailure Unit :=
  if isIssuedInFuture dgc now then Except.error DgcFailure.issuedInFuture
  else if isExpiredNow dgc now then Except.error DgcFailure.expired
  else Except.ok ()

/-- `findDGCPublicKey` (lines 186–218): look the KID up in the bundled
trust store (`!(dgc.kid in DCCCerts)`), then check the current time against
the matched certificate's validity window
(`now > x509cert.notAfter || now < x509cert.notBefore`); `now` is
`new Date()`, an integer timestamp in the model.  The returned public key
itself lives in `Env.sigOk`. -/
def findDGCPublicKey (certs : List (String × DSC)) (dgc : UnsafeDGC) (now : Int) :
    Except DgcFailure DSC :=
  match List.lookup dgc.kid certs with
  | none => Except.error DgcFailure.unknownKid
  | some certificate =>
    if now > certificate.notAfter ∨ now < certificate.notBefore then
      Except.error DgcFailure.invalidCertificate
    else Except.ok certificate

/-- `verifyDGC` (lines 226–231): claims first, then key lookup + window,
then the COSE signature, then assemble the verified `DGC`. -/
def verifyDGC (env : Env) (dgc : UnsafeDGC) (rawCoseData : List Nat) (code : List Char)
    (nowSec nowDate : Int) : Except DgcFailure DGC :=
  match verifyDGCClaims dgc nowSec with
  | Except.error e => Except.error e
  | Except.ok _ =>
    match findDGCPublicKey env.certs dgc nowDate with
    | Except.error e => Except.error e
    | Except.ok certificate =>
      if env.sigOk rawCoseData dgc.kid then
        Except.ok { toUnsafeDGC := dgc, certificate := certificate, code := code }
      else Except.error DgcFailure.invalidSignature

/-- JS `a || b` on an optional string: the empty string is falsy. -/
def jsOrStr (a : Option String) (b : String) : String :=
  match a with
  | some s => if s == "" then b else s
  | none => b

/-- `.replace(/</g, ' ')`: every `<` becomes a space. -/
def stringReplaceLt (s : String) : String :=
  String.mk (s.toList.map (fun c => if c == '<' then ' ' else c))

/-- `x && x.length` on an optional entry list: truthy iff present and
non-empty. -/
def listNonempty {α : Type} : Option (List α) → Bool
  | some (_ :: _) => true
  | _ => false

/-- `getCertificateInfo` (lines 233–270): compute the common fields (name
extraction with the `||` fallbacks and `<`-filler replacement), then branch
on `v`, `t`, `r` in that order; note the source maps a recovery-only body
to `type: 'test'` with `test_date = r[0].fr` ("date of positive test") and
`is_negative: false`.  Reading `.nam` off the `{}` fallback body throws. -/
def getCertificateInfo (cert : DGC) : Except DgcFailure CommonCertificateInfo :=
  match cert.hcert with
  | none => Except.error DgcFailure.jsTypeError
  | some hcert =>
    let common : CommonFields :=
      { first_name := jsOrStr hcert.nam.gn (stringReplaceLt (jsOrStr hcert.nam.gnt "-"))
        last_name := jsOrStr hcert.nam.fn (stringReplaceLt hcert.nam.fnt)
        date_of_birth := hcert.dob
        code := cert.code }
    match hcert.v with
    | some (v0 :: _) =>
      Except.ok
        { kind := CertKind.vaccination, common := common
          vaccination_date := some v0.dt, prophylactic_agent := some v0.vp
          doses_received := some v0.dn, doses_expected := some v0.sd
          test_date := none, is_negative := none }
    | _ =>
      match hcert.t with
      | some (t0 :: _) =>
        Except.ok
          { kind := CertKind.test, common := common
            vaccination_date := none, prophylactic_agent := none
            doses_received := none, doses_expected := none
            test_date := some t0.sc, is_negative := some (t0.tr == "260415000") }
      | _ =>
        match hcert.r with
        | some (r0 :: _) =>
          Except.ok
            { kind := CertKind.test, common := common
              vaccination_date := none, prophylactic_agent := none
              doses_received := none, doses_expected := none
              test_date := some r0.fr, is_negative := some false }
        | _ => Except.error DgcFailure.unsupportedCertificate

/-- The COSE-onward tail of `parse` (lines 279–281): structural decode,
verification, normalization. -/
def parseCose (env : Env) (rawCoseData : List Nat) (doc : List Char)
    (nowSec nowDate : Int) : Except DgcFailure CommonCertificateInfo :=
  match unsafeDGCFromCoseData env rawCoseData with
  | Except.error e => Except.error e
  | Except.ok unsafeDgc =>
    match verifyDGC env unsafeDgc rawCoseData doc nowSec nowDate with
    | Except.error e => Except.error e
    | Except.ok dgc => getCertificateInfo dgc

/-- `parse` (lines 272–282), the DGC entry point. -/
def parse (env : Env) (doc : List Char) (nowSec nowDate : Int) :
    Except DgcFailure CommonCertificateInfo :=
  match extractCoseFromQRCode env doc with
  | Except.error e => Except.error e
  | Except.ok rawCoseData => parseCose env rawCoseData doc nowSec nowDate

/-! ## A concrete slice of zlib inflation

Used to instantiate `Env.inflate` in counterexamples. -/

/-- RFC 1950's Adler-32 checksum of a byte sequence
(`s1 = 1 + Σ bytes mod 65521`, `s2 = running sum of s1 mod 65521`,
checksum `s2 * 2^16 + s1`). -/
def adler32 (data : List Nat) : Nat :=
  let f := data.foldl
    (fun (p : Nat × Nat) x => ((p.1 + x) % 65521, (p.2 + (p.1 + x) % 65521) % 65521))
    (1, 0)
  f.2 * 65536 + f.1

/-- Modelled from the spec: `pako.inflate` (the zlib collaborator of the
transport decoder, RFC 1950/1951) is a third-party dependency, not code of
this repository.  This model accepts exactly the zlib streams whose DEFLATE
payload is a single stored (uncompressed) block with byte-aligned header
`0x01` — checking the zlib header (`CM = 8`, header checksum divisible by
31, no preset dictionary), the stored block's `LEN`/`NLEN` complement, and
the Adler-32 trailer — and returns the stored bytes, exactly as pako does
on such streams; real pako additionally accepts Huffman-compressed
streams, which this model rejects. -/
def inflateStored (l : List Nat) : Option (List Nat) :=
  match l with
  | cmf :: flg :: 1 :: len0 :: len1 :: nlen0 :: nlen1 :: rest =>
    if cmf % 16 == 8 && (cmf * 256 + flg) % 31 == 0 && flg / 32 % 2 == 0 then
      if nlen0 == 255 - len0 && nlen1 == 255 - len1
          && rest.length == len0 + 256 * len1 + 4 then
        let data := rest.take (len0 + 256 * len1)
        let ck := adler32 data
        if rest.drop (len0 + 256 * len1)
            == [ck / 16777216 % 256, ck / 65536 % 256, ck / 256 % 256, ck % 256] then
          some data
        else none
      else none
    else none
  | _ => none

/-! ## Concrete fixtures

Synthetic instantiations of the third-party collaborators, used by the
witnesses and counterexamples below. -/

/-- A schema-valid vaccination body. -/
def hcertVacc : HCert :=
  { nam := { fn := some "Dupont", fnt := "DUPONT", gn := some "Jean", gnt := some "JEAN" }
    dob := "2000-01-01"
    v := some [{ dt := "2021-06-01", vp := "1119349007", dn := 2, sd := 2 }]
    t := none
    r := none }

/-- A trust-store certificate valid on the window `[0, 1000]`. -/
def dscFixture : DSC :=
  { serialNumber := "01", subject := "CN=test", issuer := "CN=csca"
    notBefore := 0, notAfter := 1000 }

/-- A synthetic `Env`: the raw COSE bytes `[42]` decode to a tag-18
4-element envelope whose protected headers (bytes `[0]`) hold KID `[1]`
(base64 `AQ==`) and whose payload (bytes `[1]`) carries issuer `FR`,
expiration 0, issued-at 0 and the vaccination body; the store trusts
`AQ==` on `[0, 1000]`, every signature checks out, and nothing inflates. -/
def envFixture : Env :=
  { decodeFirst := fun l =>
      if l == [0] then some (CborValue.map [(4, CborValue.bytes [1])])
      else some (CborValue.tagged 18 (CborValue.arr
        [CborValue.bytes [0], CborValue.null, CborValue.bytes [1], CborValue.null]))
    decodePayload := fun _ =>
      some { issuer := some "FR", expiration := some 0, issuedAt := some 0
             hcert := some hcertVacc }
    violations := fun _ => []
    certs := [("AQ==", dscFixture)]
    sigOk := fun _ _ => true
    inflate := fun _ => none }

/-! ## Helper lemmas -/

theorem b45CharVal_b45char (d : Nat) (h : d < 45) : b45CharVal (b45char d) = some d := by
  interval_cases d <;> rfl

theorem base45_digits (v : Nat) :
    v % 45 + 45 * (v / 45 % 45) + 2025 * (v / 45 / 45) = v := by
  omega

/-- Decoding inverts encoding on genuine byte sequences. -/
theorem b45_roundtrip (b : List Nat) (h : ∀ x ∈ b, x < 256) :
    b45decode (b45encode b) = some b := by
  induction b using b45encode.induct with
  | case1 => rfl
  | case2 a =>
    have ha : a < 256 := h a (by simp)
    simp only [b45encode, b45decode]
    rw [b45CharVal_b45char _ (Nat.mod_lt _ (by norm_num)),
        b45CharVal_b45char _ (by omega)]
    dsimp only
    have hv : a % 45 + 45 * (a / 45) = a := by omega
    rw [hv]
    simp only [if_pos (by omega : a ≤ 255)]
  | case3 a b rest ih =>
    have ha : a < 256 := h a (by simp)
    have hb : b < 256 := h b (by simp)
    have hrest : ∀ x ∈ rest, x < 256 := fun x hx => h x (by simp [hx])
    have hv : a * 256 + b ≤ 65535 := by omega
    simp only [b45encode, b45decode]
    rw [b45CharVal_b45char _ (Nat.mod_lt _ (by norm_num)),
        b45CharVal_b45char _ (Nat.mod_lt _ (by norm_num)),
        b45CharVal_b45char _ (by rw [Nat.div_div_eq_div_mul]; omega)]
    dsimp only
    rw [base45_digits]
    rw [if_pos hv, ih hrest]
    have h2 : (a * 256 + b) / 256 = a := by omega
    have h3 : (a * 256 + b) % 256 = b := by omega
    rw [h2, h3]

/-- The happy path of `unsafeDGCFromCoseData`: when every decode step
succeeds, the KID is present as bytes and the body is schema-valid, the
function returns the record the source builds on lines 151–157. -/
theorem unsafe_ok_of_path (env : Env) (raw pb payloadBytes : List Nat) (tag : Nat)
    (uhdrs signers : CborValue) (phdrs : List (Int × CborValue)) (kidBytes : List Nat)
    (pay : CwtPayload)
    (h1 : env.decodeFirst raw = some (CborValue.tagged tag (CborValue.arr
      [CborValue.bytes pb, uhdrs, CborValue.bytes payloadBytes, signers])))
    (h2 : env.decodeFirst pb = some (CborValue.map phdrs))
    (h3 : mapGet phdrs COSE_KID = some (CborValue.bytes kidBytes))
    (h4 : env.decodePayload payloadBytes = some pay)
    (h5 : env.violations pay.hcert = []) :
    unsafeDGCFromCoseData env raw = Except.ok
      { hcert := pay.hcert
        kid := base64String kidBytes
        issuer := jsOrNullStr pay.issuer
        issuedAt := jsOrNullInt pay.issuedAt
        expiresAt := jsOrNullInt pay.expiration } := by
  unfold unsafeDGCFromCoseData
  rw [h1]
  dsimp only [jsValue]
  rw [h2]
  dsimp only
  rw [h3]
  dsimp only [jsFalsy]
  rw [h4]
  dsimp only [ajvErrors]
  rw [h5]
  simp

/-- The schema-failure path of `unsafeDGCFromCoseData`: same prefix, but
the body has at least one schema violation. -/
theorem unsafe_schema_error_of_path (env : Env) (raw pb payloadBytes : List Nat) (tag : Nat)
    (uhdrs signers : CborValue) (phdrs : List (Int × CborValue)) (kidBytes : List Nat)
    (pay : CwtPayload) (m : String) (ms : List String)
    (h1 : env.decodeFirst raw = some (CborValue.tagged tag (CborValue.arr
      [CborValue.bytes pb, uhdrs, CborValue.bytes payloadBytes, signers])))
    (h2 : env.decodeFirst pb = some (CborValue.map phdrs))
    (h3 : mapGet phdrs COSE_KID = some (CborValue.bytes kidBytes))
    (h4 : env.decodePayload payloadBytes = some pay)
    (h5 : env.violations pay.hcert = m :: ms) :
    unsafeDGCFromCoseData env raw = Except.error (DgcFailure.schemaInvalid
      ("DGC validation failed:\n" ++ String.intercalate "\n" [m] ++ ".")) := by
  unfold unsafeDGCFromCoseData
  rw [h1]
  dsimp only [jsValue]
  rw [h2]
  dsimp only
  rw [h3]
  dsimp only [jsFalsy]
  rw [h4]
  dsimp only [ajvErrors]
  rw [h5]
  simp

/-- `verifyDGCClaims` hits exactly one of its three outcomes, decided by
the two temporal checks in source order. -/
theorem claims_cases (dgc : UnsafeDGC) (now : Int) :
    (isIssuedInFuture dgc now = true ∧
      verifyDGCClaims dgc now = Except.error DgcFailure.issuedInFuture) ∨
    (isIssuedInFuture dgc now = false ∧ isExpiredNow dgc now = true ∧
      verifyDGCClaims dgc now = Except.error DgcFailure.expired) ∨
    (isIssuedInFuture dgc now = false ∧ isExpiredNow dgc now = false ∧
      verifyDGCClaims dgc now = Except.ok ()) := by
  unfold verifyDGCClaims
  by_cases h1 : isIssuedInFuture dgc now <;> by_cases h2 : isExpiredNow dgc now <;>
    simp [h1, h2]

/-- `getCertificateInfo` either succeeds or throws one of its two own
errors; it never surfaces a transport/trust/claims error. -/
theorem getCertificateInfo_cases (cert : DGC) :
    getCertificateInfo cert = Except.error DgcFailure.jsTypeError ∨
    getCertificateInfo cert = Except.error DgcFailure.unsupportedCertificate ∨
    ∃ info, getCertificateInfo cert = Except.ok info := by
  unfold getCertificateInfo
  rcases cert.hcert with _ | h
  · simp
  · dsimp only
    rcases h.v with _ | (_ | ⟨v0, vs⟩) <;>
      rcases h.t with _ | (_ | ⟨t0, ts⟩) <;>
        rcases h.r with _ | (_ | ⟨r0, rs⟩) <;> simp

/-! ## C4 — the claims validator -/

/-- **C4** (confirmed): claims validation, as a function of
`(issued_at, expires_at, now)`, raises `IssuedInFutureError` iff
`issued_at` is set and `now < issued_at`; raises `ExpiredError` iff
`issued_at` is absent or not in the future, `expires_at` is set and
`expires_at < now` (so when both violations hold, `IssuedInFutureError` is
the one surfaced); and succeeds exactly when both claims are absent or
satisfied. -/
theorem C4_claims_validator (dgc : UnsafeDGC) (now : Int) :
    (verifyDGCClaims dgc now = Except.error DgcFailure.issuedInFuture ↔
      ∃ ia, dgc.issuedAt = some ia ∧ now < ia) ∧
    (verifyDGCClaims dgc now = Except.error DgcFailure.expired ↔
      ((∀ ia, dgc.issuedAt = some ia → ia ≤ now) ∧
        ∃ ea, dgc.expiresAt = some ea ∧ ea < now)) ∧
    (verifyDGCClaims dgc now = Except.ok () ↔
      ((∀ ia, dgc.issuedAt = some ia → ia ≤ now) ∧
        ∀ ea, dgc.expiresAt = some ea → now ≤ ea)) := by
  rcases hia : dgc.issuedAt with _ | ia <;> rcases hea : dgc.expiresAt with _ | ea <;>
    simp only [verifyDGCClaims, isIssuedInFuture, isExpiredNow, hia, hea] <;>
    split_ifs with h1 h2 <;> simp_all

/-! ## C7 — the trust-store validity window -/

/-- **C7** (confirmed): when the KID is found in the trust store,
`findDGCPublicKey` raises `InvalidCertificateError` exactly when the
current time lies outside the matched certificate's
`[notBefore, notAfter]` window, and succeeds exactly when it lies within
(bounds included). -/
theorem C7_certificate_window (certs : List (String × DSC)) (dgc : UnsafeDGC) (now : Int)
    (certificate : DSC) (h : List.lookup dgc.kid certs = some certificate) :
    (findDGCPublicKey certs dgc now = Except.error DgcFailure.invalidCertificate ↔
      (now > certificate.notAfter ∨ now < certificate.notBefore)) ∧
    (findDGCPublicKey certs dgc now = Except.ok certificate ↔
      (certificate.notBefore ≤ now ∧ now ≤ certificate.notAfter)) := by
  unfold findDGCPublicKey
  rw [h]
  dsimp only
  by_cases hw : now > certificate.notAfter ∨ now < certificate.notBefore
  · rw [if_pos hw]
    constructor
    · simp [hw]
    · constructor
      · intro hc
        cases hc
      · intro hc
        omega
  · rw [if_neg hw]
    constructor
    · constructor <;> intro hc
      · cases hc
      · exact absurd hc hw
    · simp
      omega

/-- Witness for C7: the fixture certificate is valid at time 500, inside
its `[0, 1000]` window, and the lookup succeeds. -/
theorem C7_certificate_window_witness :
    findDGCPublicKey [("AQ==", dscFixture)]
      { hcert := some hcertVacc, kid := "AQ==", issuer := none, issuedAt := none,
        expiresAt := none } 500 = Except.ok dscFixture :=
  (C7_certificate_window [("AQ==", dscFixture)] _ 500 dscFixture (by decide)).2.mpr
    (by decide)

/-! ## C6 — zero-valued temporal claims -/

/-- **C6** (confirmed): `cborData.get(...) || null` turns a CWT claim whose
decoded value is the number `0` into `null`, for both the expiration
(key 4) and issued-at (key 6) claims; consequently a document whose
expiration is epoch second 0 — a time in the past — has `expiresAt = null`
and passes claims validation at any current time without `ExpiredError`:
a present zero-valued temporal claim is conflated with an absent one. -/
theorem C6_zero_temporal_claims (env : Env) (raw pb payloadBytes : List Nat) (tag : Nat)
    (uhdrs signers : CborValue) (phdrs : List (Int × CborValue)) (kidBytes : List Nat)
    (pay : CwtPayload) (now : Int)
    (h1 : env.decodeFirst raw = some (CborValue.tagged tag (CborValue.arr
      [CborValue.bytes pb, uhdrs, CborValue.bytes payloadBytes, signers])))
    (h2 : env.decodeFirst pb = some (CborValue.map phdrs))
    (h3 : mapGet phdrs COSE_KID = some (CborValue.bytes kidBytes))
    (h4 : env.decodePayload payloadBytes = some pay)
    (h5 : env.violations pay.hcert = [])
    (hexp : pay.expiration = some 0) (hiss : pay.issuedAt = some 0) :
    ∃ dgc, unsafeDGCFromCoseData env raw = Except.ok dgc ∧
      dgc.expiresAt = none ∧ dgc.issuedAt = none ∧
      verifyDGCClaims dgc now = Except.ok () := by
  refine ⟨_, unsafe_ok_of_path env raw pb payloadBytes tag uhdrs signers phdrs kidBytes pay
    h1 h2 h3 h4 h5, ?_, ?_, ?_⟩
  · simp [jsOrNullInt, hexp]
  · simp [jsOrNullInt, hiss]
  · simp [verifyDGCClaims, isIssuedInFuture, isExpiredNow, jsOrNullInt, hexp, hiss]

/-- Witness for C6: the fixture payload carries `expiration = 0` and
`issued-at = 0`; the decoded record has both claims null and passes
claims validation at a present-day timestamp. -/
theorem C6_zero_temporal_claims_witness :
    ∃ dgc, unsafeDGCFromCoseData envFixture [42] = Except.ok dgc ∧
      dgc.expiresAt = none ∧ dgc.issuedAt = none ∧
      verifyDGCClaims dgc 1700000000 = Except.ok () :=
  C6_zero_temporal_claims envFixture [42] [0] [1] 18 CborValue.null CborValue.null
    [(4, CborValue.bytes [1])] [1]
    { issuer := some "FR", expiration := some 0, issuedAt := some 0, hcert := some hcertVacc }
    1700000000 rfl rfl rfl rfl rfl rfl rfl

/-! ## C5 — the schema-validation diagnostic -/

/-- An environment whose schema validator finds two violations in every
body. -/
def envTwoViolations : Env :=
  { envFixture with
    violations := fun _ => ["missing required property dob", "invalid date format"] }

/-- Counterexample to **C5**: the claim says the `SchemaValidationError`
carries *all* accumulated validation messages, not only the first
violation found.  But the validator is built as plain `new Ajv()`, whose
default leaves `allErrors` off, so ajv stops at the first violation: a
body with two violations yields a diagnostic that carries only the first
and is not the join of both messages. -/
theorem C5_counterexample :
    unsafeDGCFromCoseData envTwoViolations [42] = Except.error (DgcFailure.schemaInvalid
      "DGC validation failed:\nmissing required property dob.") ∧
    "DGC validation failed:\nmissing required property dob." ≠
      "DGC validation failed:\n" ++
        String.intercalate "\n" ["missing required property dob", "invalid date format"]
        ++ "." := by
  decide

/-- **C5** (amended): on schema failure the raised error's diagnostic is
the join (newline-separated, with the `DGC validation failed:` header) of
*every* message in `ajv.errors` — but with the default `new Ajv()`
configuration used here, `ajv.errors` holds exactly the first violation
found, so the diagnostic carries only that first message. -/
theorem C5_schema_error_message (env : Env) (raw pb payloadBytes : List Nat) (tag : Nat)
    (uhdrs signers : CborValue) (phdrs : List (Int × CborValue)) (kidBytes : List Nat)
    (pay : CwtPayload) (m : String) (ms : List String)
    (h1 : env.decodeFirst raw = some (CborValue.tagged tag (CborValue.arr
      [CborValue.bytes pb, uhdrs, CborValue.bytes payloadBytes, signers])))
    (h2 : env.decodeFirst pb = some (CborValue.map phdrs))
    (h3 : mapGet phdrs COSE_KID = some (CborValue.bytes kidBytes))
    (h4 : env.decodePayload payloadBytes = some pay)
    (h5 : env.violations pay.hcert = m :: ms) :
    ajvErrors false (env.violations pay.hcert) = [m] ∧
    unsafeDGCFromCoseData env raw = Except.error (DgcFailure.schemaInvalid
      ("DGC validation failed:\n" ++
        String.intercalate "\n" (ajvErrors false (env.violations pay.hcert)) ++ ".")) := by
  have he : ajvErrors false (env.violations pay.hcert) = [m] := by
    simp [ajvErrors, h5]
  refine ⟨he, ?_⟩
  rw [he]
  exact unsafe_schema_error_of_path env raw pb payloadBytes tag uhdrs signers phdrs kidBytes
    pay m ms h1 h2 h3 h4 h5

/-- Witness for the amended C5, at the two-violation environment. -/
theorem C5_schema_error_message_witness :
    ajvErrors false (envTwoViolations.violations (some hcertVacc)) =
      ["missing required property dob"] ∧
    unsafeDGCFromCoseData envTwoViolations [42] = Except.error (DgcFailure.schemaInvalid
      ("DGC validation failed:\n" ++
        String.intercalate "\n" (ajvErrors false (envTwoViolations.violations (some hcertVacc)))
        ++ ".")) :=
  C5_schema_error_message envTwoViolations [42] [0] [1] 18 CborValue.null CborValue.null
    [(4, CborValue.bytes [1])] [1]
    { issuer := some "FR", expiration := some 0, issuedAt := some 0, hcert := some hcertVacc }
    "missing required property dob" ["invalid date format"] rfl rfl rfl rfl rfl

/-! ## C1 — unknown signer -/

/-- A record whose KID is unknown to the fixture trust store and whose
expiration (epoch second 5) has already passed. -/
def dgcUnknownExpired : UnsafeDGC :=
  { hcert := some hcertVacc, kid := "nope", issuer := none, issuedAt := none,
    expiresAt := some 5 }

/-- Counterexample to **C1**: the claim says a document with an unknown
key identifier fails with `UnknownSignerError` even when it is also
expired.  But `verifyDGC` runs `verifyDGCClaims` *before*
`findDGCPublicKey`, so a document that is both expired and signed by an
unknown KID surfaces `ExpiredDgcError`, not `UnknownKidError`. -/
theorem C1_counterexample :
    List.lookup dgcUnknownExpired.kid envFixture.certs = none ∧
    verifyDGC envFixture dgcUnknownExpired [42] [] 100 100 =
      Except.error DgcFailure.expired ∧
    verifyDGC envFixture dgcUnknownExpired [42] [] 100 100 ≠
      Except.error DgcFailure.unknownKid := by
  decide

/-- **C1** (amended): a document whose key identifier is absent from the
trust store fails with `UnknownKidError` provided its temporal claims
pass (and, earlier still, its schema was valid — a schema violation or a
temporal violation is surfaced before the trust-store lookup runs). -/
theorem C1_unknown_signer (env : Env) (dgc : UnsafeDGC) (raw : List Nat) (doc : List Char)
    (nowSec nowDate : Int)
    (hclaims : verifyDGCClaims dgc nowSec = Except.ok ())
    (hkid : List.lookup dgc.kid env.certs = none) :
    verifyDGC env dgc raw doc nowSec nowDate = Except.error DgcFailure.unknownKid := by
  unfold verifyDGC
  rw [hclaims]
  dsimp only
  unfold findDGCPublicKey
  rw [hkid]

/-- Witness for the amended C1: an empty trust store rejects the fixture
record as an unknown signer. -/
theorem C1_unknown_signer_witness :
    verifyDGC { envFixture with certs := [] }
      { hcert := some hcertVacc, kid := "AQ==", issuer := none, issuedAt := none,
        expiresAt := none } [42] [] 100 100 = Except.error DgcFailure.unknownKid :=
  C1_unknown_signer { envFixture with certs := [] }
    { hcert := some hcertVacc, kid := "AQ==", issuer := none, issuedAt := none,
      expiresAt := none } [42] [] 100 100 (by decide) (by decide)

/-! ## C3 and C10 — the normalizer -/

theorem listNonempty_eq_true {α : Type} (o : Option (List α)) :
    listNonempty o = true ↔ ∃ x xs, o = some (x :: xs) := by
  rcases o with _ | (_ | ⟨x, xs⟩) <;> simp [listNonempty]

theorem listNonempty_eq_false {α : Type} (o : Option (List α)) :
    listNonempty o = false ↔ (o = none ∨ o = some []) := by
  rcases o with _ | (_ | ⟨x, xs⟩) <;> simp [listNonempty]

/-- Inversion for `getCertificateInfo`: on success the common fields are
the name/dob/code record computed on lines 235–241, whatever branch was
taken. -/
theorem getCertificateInfo_common (cert : DGC) (h : HCert) (info : CommonCertificateInfo)
    (hh : cert.hcert = some h) (hres : getCertificateInfo cert = Except.ok info) :
    info.common =
      { first_name := jsOrStr h.nam.gn (stringReplaceLt (jsOrStr h.nam.gnt "-"))
        last_name := jsOrStr h.nam.fn (stringReplaceLt h.nam.fnt)
        date_of_birth := h.dob
        code := cert.code } := by
  unfold getCertificateInfo at hres
  rw [hh] at hres
  dsimp only at hres
  split at hres
  · simp only [Except.ok.injEq] at hres
    subst hres
    rfl
  · split at hres
    · simp only [Except.ok.injEq] at hres
      subst hres
      rfl
    · split at hres
      · simp only [Except.ok.injEq] at hres
        subst hres
        rfl
      · cases hres

/-- A schema-valid recovery-only body. -/
def hcertRecovery : HCert :=
  { nam := { fn := some "Dupont", fnt := "DUPONT", gn := some "Jean", gnt := some "JEAN" }
    dob := "2000-01-01"
    v := none
    t := none
    r := some [{ fr := "2021-03-01" }] }

def dgcRecovery : DGC :=
  { hcert := some hcertRecovery, kid := "AQ==", issuer := some "FR", issuedAt := none,
    expiresAt := none, certificate := dscFixture, code := [] }

def dgcVacc : DGC :=
  { hcert := some hcertVacc, kid := "AQ==", issuer := some "FR", issuedAt := none,
    expiresAt := none, certificate := dscFixture, code := ['x'] }

/-- Counterexample to **C3**: the claim says a body whose recovery entry
list is the populated one normalizes to type `recovery`; but the source's
recovery branch (lines 261–268) returns `type: 'test'` (a recovery is
rendered as a positive test dated at the first positive result). -/
theorem C3_counterexample :
    Except.map CommonCertificateInfo.kind (getCertificateInfo dgcRecovery) =
      Except.ok CertKind.test ∧
    CertKind.test ≠ CertKind.recovery := by
  decide

/-- **C3** (amended): the normalizer branches on the three entry lists in
fixed precedence — vaccination first, then test, then recovery — but the
recovery branch also produces type `test` (with `is_negative = false` and
the recovery's first-positive-test date as the test date); only when none
of the three lists is populated does it raise the unsupported-certificate
error. -/
theorem C3_normalizer_type (cert : DGC) (h : HCert) (hh : cert.hcert = some h) :
    (listNonempty h.v = true →
      Except.map CommonCertificateInfo.kind (getCertificateInfo cert) =
        Except.ok CertKind.vaccination) ∧
    (listNonempty h.v = false → listNonempty h.t = true →
      Except.map CommonCertificateInfo.kind (getCertificateInfo cert) =
        Except.ok CertKind.test) ∧
    (listNonempty h.v = false → listNonempty h.t = false → listNonempty h.r = true →
      ∃ info r0 rs, getCertificateInfo cert = Except.ok info ∧ h.r = some (r0 :: rs) ∧
        info.kind = CertKind.test ∧ info.is_negative = some false ∧
        info.test_date = some r0.fr) ∧
    (listNonempty h.v = false → listNonempty h.t = false → listNonempty h.r = false →
      getCertificateInfo cert = Except.error DgcFailure.unsupportedCertificate) := by
  refine ⟨?_, ?_, ?_, ?_⟩
  · intro hvt
    obtain ⟨v0, vs, hv⟩ := (listNonempty_eq_true _).mp hvt
    unfold getCertificateInfo
    rw [hh]
    dsimp only
    rw [hv]
    rfl
  · intro hvf htt
    obtain ⟨t0, ts, ht⟩ := (listNonempty_eq_true _).mp htt
    rcases (listNonempty_eq_false _).mp hvf with hv | hv <;>
      (unfold getCertificateInfo; rw [hh]; dsimp only; rw [hv]; dsimp only; rw [ht]; rfl)
  · intro hvf htf hrt
    obtain ⟨r0, rs, hr⟩ := (listNonempty_eq_true _).mp hrt
    rcases (listNonempty_eq_false _).mp hvf with hv | hv <;>
      rcases (listNonempty_eq_false _).mp htf with ht | ht <;>
        (unfold getCertificateInfo; rw [hh]; dsimp only; rw [hv]; dsimp only;
          rw [ht]; dsimp only; rw [hr]; dsimp only) <;>
          exact ⟨_, r0, rs, rfl, rfl, rfl, rfl, rfl⟩
  · intro hvf htf hrf
    rcases (listNonempty_eq_false _).mp hvf with hv | hv <;>
      rcases (listNonempty_eq_false _).mp htf with ht | ht <;>
        rcases (listNonempty_eq_false _).mp hrf with hr | hr <;>
          (unfold getCertificateInfo; rw [hh]; dsimp only; rw [hv]; dsimp only;
            rw [ht]; dsimp only; rw [hr])

/-- Witness for the amended C3: the fixture vaccination record normalizes
to type `vaccination`. -/
theorem C3_normalizer_type_witness :
    Except.map CommonCertificateInfo.kind (getCertificateInfo dgcVacc) =
      Except.ok CertKind.vaccination :=
  (C3_normalizer_type dgcVacc hcertVacc rfl).1 (by decide)

/-- A schema-valid body with no primary first name and an empty
transliterated first name (the DCC schema's `gnt` pattern `^[A-Z<]*$`
admits the empty string). -/
def hcertEmptyGnt : HCert :=
  { nam := { fn := some "Dupont", fnt := "DUPONT", gn := none, gnt := some "" }
    dob := "2000-01-01"
    v := some [{ dt := "2021-06-01", vp := "1119349007", dn := 2, sd := 2 }]
    t := none
    r := none }

def dgcEmptyGnt : DGC :=
  { hcert := some hcertEmptyGnt, kid := "AQ==", issuer := some "FR", issuedAt := none,
    expiresAt := none, certificate := dscFixture, code := [] }

/-- Counterexample to **C10**: for a body whose primary first name is
absent and whose transliterated first name is the empty string, the claim
prescribes the transformed alternate — the empty string — but the source's
`(hcert.nam.gnt || '-')` fallback yields `'-'` instead. -/
theorem C10_counterexample :
    Except.map (fun info => info.common.first_name) (getCertificateInfo dgcEmptyGnt) =
      Except.ok "-" ∧
    (Except.ok "-" : Except DgcFailure String) ≠ Except.ok (stringReplaceLt "") := by
  decide

/-- **C10** (amended): name extraction returns the primary field unchanged
when present and non-empty, and otherwise the transliterated alternate
with every `<` replaced by a space — except that the first-name field
additionally falls back to the literal `'-'` when its alternate (`gnt`) is
itself absent or empty; the last-name field has no such fallback (`fnt` is
schema-required). -/
theorem C10_name_extraction (cert : DGC) (h : HCert) (info : CommonCertificateInfo)
    (hh : cert.hcert = some h) (hres : getCertificateInfo cert = Except.ok info) :
    (∀ s, h.nam.gn = some s → s ≠ "" → info.common.first_name = s) ∧
    ((h.nam.gn = none ∨ h.nam.gn = some "") →
      ∀ s, h.nam.gnt = some s → s ≠ "" → info.common.first_name = stringReplaceLt s) ∧
    ((h.nam.gn = none ∨ h.nam.gn = some "") → (h.nam.gnt = none ∨ h.nam.gnt = some "") →
      info.common.first_name = "-") ∧
    (∀ s, h.nam.fn = some s → s ≠ "" → info.common.last_name = s) ∧
    ((h.nam.fn = none ∨ h.nam.fn = some "") → info.common.last_name = stringReplaceLt h.nam.fnt) := by
  have hdash : stringReplaceLt "-" = "-" := rfl
  have hc := getCertificateInfo_common cert h info hh hres
  rw [hc]
  dsimp only
  refine ⟨?_, ?_, ?_, ?_, ?_⟩
  · intro s hs hne
    simp [jsOrStr, hs, beq_iff_eq, hne]
  · rintro (hg | hg) s hs hne <;> simp [jsOrStr, hg, hs, beq_iff_eq, hne]
  · rintro (hg | hg) (hgt | hgt) <;> simp [jsOrStr, hg, hgt, beq_iff_eq, hdash]
  · intro s hs hne
    simp [jsOrStr, hs, beq_iff_eq, hne]
  · rintro (hf | hf) <;> simp [jsOrStr, hf, beq_iff_eq]

/-- The normalized record of the fixture vaccination document. -/
def infoVacc : CommonCertificateInfo :=
  { kind := CertKind.vaccination
    common := { first_name := "Jean", last_name := "Dupont", date_of_birth := "2000-01-01",
                code := ['x'] }
    vaccination_date := some "2021-06-01"
    prophylactic_agent := some "1119349007"
    doses_received := some 2
    doses_expected := some 2
    test_date := none
    is_negative := none }

/-- Witness for the amended C10: the fixture document's non-empty primary
first name is returned unchanged. -/
theorem C10_name_extraction_witness : infoVacc.common.first_name = "Jean" :=
  (C10_name_extraction dgcVacc hcertVacc infoVacc rfl (by decide)).1 "Jean" rfl (by decide)

/-! ## C8 — the structured payload decoder -/

/-- **C8** (confirmed): structured decoding fails with the malformed-COSE
error whenever the decoded top-level value is not exactly a 4-element
array; it fails with the missing-KID error (the "unknown signer" context)
whenever the decoded protected headers hold no key identifier under header
key 4; and whenever it succeeds, the record's `kid` is the base64
rendering of the raw key-identifier bytes. -/
theorem C8_structured_decode (env : Env) (raw : List Nat) (coseData : CborValue)
    (hc : env.decodeFirst raw = some coseData) :
    ((∀ a b c d, jsValue coseData ≠ some (CborValue.arr [a, b, c, d])) →
      unsafeDGCFromCoseData env raw = Except.error DgcFailure.malformedCose) ∧
    (∀ pb uhdrs payload signers phdrs,
      jsValue coseData = some (CborValue.arr [CborValue.bytes pb, uhdrs, payload, signers]) →
      env.decodeFirst pb = some (CborValue.map phdrs) →
      mapGet phdrs COSE_KID = none →
      unsafeDGCFromCoseData env raw = Except.error DgcFailure.missingKid) ∧
    (∀ pb uhdrs payload signers phdrs kidBytes dgc,
      jsValue coseData = some (CborValue.arr [CborValue.bytes pb, uhdrs, payload, signers]) →
      env.decodeFirst pb = some (CborValue.map phdrs) →
      mapGet phdrs COSE_KID = some (CborValue.bytes kidBytes) →
      unsafeDGCFromCoseData env raw = Except.ok dgc →
      dgc.kid = base64String kidBytes) := by
  refine ⟨?_, ?_, ?_⟩
  · intro hshape
    unfold unsafeDGCFromCoseData
    rw [hc]
    dsimp only
    split
    · next p u pl sg hjv => exact absurd hjv (hshape p u pl sg)
    · rfl
  · intro pb uhdrs payload signers phdrs hjv h2 h3
    unfold unsafeDGCFromCoseData
    rw [hc]
    dsimp only
    rw [hjv]
    dsimp only
    rw [h2]
    dsimp only
    rw [h3]
  · intro pb uhdrs payload signers phdrs kidBytes dgc hjv h2 h3 hok
    unfold unsafeDGCFromCoseData at hok
    rw [hc] at hok
    dsimp only at hok
    rw [hjv] at hok
    dsimp only at hok
    rw [h2] at hok
    dsimp only at hok
    rw [h3] at hok
    simp only [jsFalsy, Bool.false_eq_true, if_false] at hok
    rcases payload with _ | pbytes | _ | _ | _ | _ | _ | _ <;> try cases hok
    dsimp only at hok
    rcases hp : env.decodePayload pbytes with _ | pay <;> rw [hp] at hok <;> try cases hok
    dsimp only at hok
    rcases he : ajvErrors false (env.violations pay.hcert) with _ | ⟨m, ms⟩ <;>
      rw [he] at hok
    · simp only [Except.ok.injEq] at hok
      rw [← hok]
    · cases hok

/-- Witness for C8: the fixture envelope's KID bytes `[1]` surface as the
base64 string `AQ==`. -/
theorem C8_structured_decode_witness :
    ({ hcert := some hcertVacc, kid := "AQ==", issuer := some "FR", issuedAt := none,
       expiresAt := none } : UnsafeDGC).kid = base64String [1] :=
  (C8_structured_decode envFixture [42] (CborValue.tagged 18 (CborValue.arr
    [CborValue.bytes [0], CborValue.null, CborValue.bytes [1], CborValue.null])) rfl).2.2
    [0] CborValue.null (CborValue.bytes [1]) CborValue.null [(4, CborValue.bytes [1])] [1]
    { hcert := some hcertVacc, kid := "AQ==", issuer := some "FR", issuedAt := none,
      expiresAt := none } rfl rfl rfl (by decide)

/-! ## C9 — the transport round-trip -/

/-- The fixture environment with the stored-block zlib inflater. -/
def envPako : Env := { envFixture with inflate := inflateStored }

/-- A complete zlib stream: header `78 01`, one final stored deflate block
of length 1 holding the byte `0x41`, Adler-32 trailer `00 42 00 42`.
pako inflates it to `[0x41]`. -/
def zlibStoredA : List Nat := [120, 1, 1, 1, 0, 254, 255, 65, 0, 66, 0, 66]

/-- Counterexample to **C9**: the claim's round-trip fails for a byte
sequence that is itself a valid zlib stream and is radix-45 encoded
*without* compression — the decoder's opportunistic inflation then
succeeds and returns the inflated bytes instead of the original
sequence. -/
theorem C9_counterexample :
    inflateStored zlibStoredA = some [65] ∧
    extractCoseFromQRCode envPako (HC1_HEADER ++ b45encode zlibStoredA) = Except.ok [65] ∧
    (Except.ok [65] : Except DgcFailure (List Nat)) ≠ Except.ok zlibStoredA := by
  decide

/-- **C9** (amended): for every byte sequence `b`, transport-decoding
`'HC1:' ++ base45(x)` returns exactly `b` in both intended modes — when
`x` is a zlib compression of `b` (inflation undoes it), and when `x = b`
itself, provided `b` is not accidentally a decodable zlib stream (true of
every COSE payload, whose first byte is not a zlib header). -/
theorem C9_transport_roundtrip (env : Env) (b compressed : List Nat)
    (hb : ∀ x ∈ b, x < 256) (hcomp : ∀ x ∈ compressed, x < 256) :
    (env.inflate compressed = some b →
      extractCoseFromQRCode env (HC1_HEADER ++ b45encode compressed) = Except.ok b) ∧
    (env.inflate b = none →
      extractCoseFromQRCode env (HC1_HEADER ++ b45encode b) = Except.ok b) := by
  have hpre : ∀ l : List Char, HC1_HEADER.isPrefixOf (HC1_HEADER ++ l) = true := by
    intro l
    rw [List.isPrefixOf_iff_prefix]
    exact List.prefix_append _ _
  have hdrop : ∀ l : List Char, (HC1_HEADER ++ l).drop 4 = l := fun l => rfl
  constructor
  · intro hi
    unfold extractCoseFromQRCode
    rw [if_pos (hpre _), hdrop, b45_roundtrip compressed hcomp]
    dsimp only
    rw [hi]
  · intro hi
    unfold extractCoseFromQRCode
    rw [if_pos (hpre _), hdrop, b45_roundtrip b hb]
    dsimp only
    rw [hi]

/-- Witness for the amended C9: the fixture environment inflates nothing,
so the uncompressed encoding of `[1, 2]` round-trips. -/
theorem C9_transport_roundtrip_witness :
    extractCoseFromQRCode envFixture (HC1_HEADER ++ b45encode [1, 2]) = Except.ok [1, 2] :=
  (C9_transport_roundtrip envFixture [1, 2] [0] (by decide) (by decide)).2 (by decide)

/-! ## C2 — stage order of the pipeline -/

/-- An environment in which the fixture document is rejectable at two
stages at once: its body is schema-invalid *and* its KID is unknown to the
(empty) trust store. -/
def envSchemaFailNoTrust : Env :=
  { envFixture with violations := fun _ => ["mandatory property missing"], certs := [] }

/-- Counterexample to **C2**: the claim places the trust-store lookup
*before* claims and schema validation, so a document rejectable both as an
unknown signer and as schema-invalid would have to surface
`UnknownSignerError`; the pipeline instead surfaces the schema error —
`unsafeDGCFromCoseData` validates the body before `verifyDGC` ever looks
the KID up. -/
theorem C2_counterexample :
    parseCose envSchemaFailNoTrust [42] [] 0 0 = Except.error
      (DgcFailure.schemaInvalid "DGC validation failed:\nmandatory property missing.") ∧
    List.lookup (base64String [1]) envSchemaFailNoTrust.certs = none ∧
    parseCose envSchemaFailNoTrust [42] [] 0 0 ≠ Except.error DgcFailure.unknownKid := by
  decide

/-- **C2** (amended): the pipeline's actual stage order is transport
decode, structured payload decode, key-id extraction, *schema validation*,
*claims validation* (issued-in-future before expired), *trust-store
lookup*, certificate validity window, signature verification,
normalization; a document rejectable at several stages surfaces the
failure of the earliest stage in *this* order.  Stated as: transport
errors pass through `parse` unchanged, structural/schema errors pass
through `parseCose` unchanged, and once structural decoding succeeded,
each verification error is surfaced exactly when its stage fails and
every earlier stage passes. -/
theorem C2_stage_order (env : Env) (raw : List Nat) (doc : List Char) (nowSec nowDate : Int) :
    (∀ e, extractCoseFromQRCode env doc = Except.error e →
      parse env doc nowSec nowDate = Except.error e) ∧
    (∀ cose, extractCoseFromQRCode env doc = Except.ok cose →
      parse env doc nowSec nowDate = parseCose env cose doc nowSec nowDate) ∧
    (∀ e, unsafeDGCFromCoseData env raw = Except.error e →
      parseCose env raw doc nowSec nowDate = Except.error e) ∧
    (∀ u, unsafeDGCFromCoseData env raw = Except.ok u →
      ((parseCose env raw doc nowSec nowDate = Except.error DgcFailure.issuedInFuture ↔
        isIssuedInFuture u nowSec = true) ∧
       (parseCose env raw doc nowSec nowDate = Except.error DgcFailure.expired ↔
        (isIssuedInFuture u nowSec = false ∧ isExpiredNow u nowSec = true)) ∧
       (parseCose env raw doc nowSec nowDate = Except.error DgcFailure.unknownKid ↔
        (verifyDGCClaims u nowSec = Except.ok () ∧ List.lookup u.kid env.certs = none)) ∧
       (parseCose env raw doc nowSec nowDate = Except.error DgcFailure.invalidCertificate ↔
        (verifyDGCClaims u nowSec = Except.ok () ∧ ∃ c, List.lookup u.kid env.certs = some c ∧
          (nowDate > c.notAfter ∨ nowDate < c.notBefore))) ∧
       (parseCose env raw doc nowSec nowDate = Except.error DgcFailure.invalidSignature ↔
        (verifyDGCClaims u nowSec = Except.ok () ∧
          (∃ c, List.lookup u.kid env.certs = some c ∧
            ¬(nowDate > c.notAfter ∨ nowDate < c.notBefore)) ∧
          env.sigOk raw u.kid = false)))) := by
  refine ⟨?_, ?_, ?_, ?_⟩
  · intro e he
    unfold parse
    rw [he]
  · intro cose hc
    unfold parse
    rw [hc]
  · intro e he
    unfold parseCose
    rw [he]
  · intro u hu
    unfold parseCose
    rw [hu]
    dsimp only
    unfold verifyDGC
    rcases claims_cases u nowSec with ⟨hif, hcl⟩ | ⟨hif, hex, hcl⟩ | ⟨hif, hex, hcl⟩ <;>
      rw [hcl] <;> dsimp only
    · refine ⟨?_, ?_, ?_, ?_, ?_⟩ <;> simp [hif, hcl]
    · refine ⟨?_, ?_, ?_, ?_, ?_⟩ <;> simp [hif, hex, hcl]
    · unfold findDGCPublicKey
      rcases hl : List.lookup u.kid env.certs with _ | c <;> dsimp only
      · refine ⟨?_, ?_, ?_, ?_, ?_⟩ <;> simp [hif, hex, hcl, hl]
      · by_cases hw : nowDate > c.notAfter ∨ nowDate < c.notBefore
        · rw [if_pos hw]
          dsimp only
          refine ⟨?_, ?_, ?_, ?_, ?_⟩ <;> simp [hif, hex, hcl, hl, hw]
          intro h1 h2
          exact absurd hw (by omega)
        · rw [if_neg hw]
          dsimp only
          cases hs : env.sigOk raw u.kid
          · refine ⟨?_, ?_, ?_, ?_, ?_⟩ <;> simp [hif, hex, hcl, hl, hw]
            omega
          · rcases getCertificateInfo_cases
              { toUnsafeDGC := u, certificate := c, code := doc } with hg | hg | ⟨info, hg⟩ <;>
              (refine ⟨?_, ?_, ?_, ?_, ?_⟩ <;> simp [hif, hex, hcl, hl, hw, hg])

/-- Witness for the amended C2: at the fixture environment the whole
pipeline succeeds, so in particular none of the five verification errors
is surfaced; conjunct 3 is exercised on the schema-failing environment. -/
theorem C2_stage_order_witness :
    parseCose envSchemaFailNoTrust [42] [] 0 0 = Except.error
      (DgcFailure.schemaInvalid "DGC validation failed:\nmandatory property missing.") :=
  (C2_stage_order envSchemaFailNoTrust [42] [] 0 0).2.2.1
    (DgcFailure.schemaInvalid "DGC validation failed:\nmandatory property missing.")
    (by decide)

end Sanipasse
